import Mathlib

/-!
# Verification of the ARR-waterfall column-section period resolver

Shallow embedding of the algorithmic core of `scripts/process_arr_waterfall.py`
and `scripts/process_arr_waterfall_FINAL.py`: header classification, period
column detection, period value disambiguation, trailing-window selection,
cross-section alignment, entity-row filtering and period/date rendering.

The grid model mirrors the pandas view of the workbook produced by
`pd.read_excel(..., header=0)`:
* `Grid.cols` are the pandas column labels (the workbook's first row, which
  carries the section titles);
* `Grid.rows` are the dataframe rows; `rows[0]` is `df.iloc[0]`, the in-frame
  header row carrying the per-column labels and the period values
  (`header_row_idx = 0` in the script);
* an empty cell (pandas `NaN`) is `none`.

Column labels in this workbook are distinct (pandas mangles duplicates), so
label-based indexing in the scripts coincides with positional indexing and is
embedded positionally here.
-/

namespace ArrWaterfall

/-- A workbook cell value as the scripts distinguish them: a Python `int`, a
Python `float` given by its shortest-repr decomposition (integer part and the
fraction digit string, exactly the pieces `str(x).split('.')` yields), or a
string.  `CellVal` carries the float's repr rather than a real number because
the scripts themselves branch on `str(x)`. -/
inductive CellVal where
  | vint : Int → CellVal
  | vfloat : Int → String → CellVal
  | vstr : String → CellVal
deriving DecidableEq

/-- A grid cell; `none` is an empty cell (pandas `NaN`). -/
abbrev Cell := Option CellVal

/-- Python `str()` of a cell value (`str(col)` at line 42 of
`process_arr_waterfall.py`). -/
def pyStr (v : CellVal) : String :=
  match v with
  | .vint n => toString n
  | .vfloat ip frac => toString ip ++ "." ++ frac
  | .vstr s => s

/-- Value of a nonempty all-digit character list. -/
def digitsVal (l : List Char) : Nat :=
  l.foldl (fun a c => 10 * a + (c.toNat - 48)) 0

/-- Models Python `int()` on a character list: an optional sign followed by
decimal digits; every other form raises `ValueError` (here: `none`). -/
def pyIntChars? (l : List Char) : Option Int :=
  match l with
  | '-' :: rest =>
      if rest ≠ [] ∧ rest.all Char.isDigit then some (-(digitsVal rest : Int)) else none
  | '+' :: rest =>
      if rest ≠ [] ∧ rest.all Char.isDigit then some (digitsVal rest : Int) else none
  | l => if l ≠ [] ∧ l.all Char.isDigit then some (digitsVal l : Int) else none

/-- Models Python `int(s)` on the shapes arising in these scripts. -/
def pyInt? (s : String) : Option Int :=
  pyIntChars? s.data

/-- Python `s.split('.')` on a character list, with an accumulator for the
current segment: splits at every `'.'`, keeping empty segments. -/
def splitDotAux : List Char → List Char → List (List Char)
  | [], acc => [acc.reverse]
  | c :: rest, acc =>
      if c = '.' then acc.reverse :: splitDotAux rest []
      else splitDotAux rest (c :: acc)

/-- Python `s.split('.')`. -/
def pySplitDot (s : String) : List String :=
  (splitDotAux s.data []).map String.mk

/-- Models Python `float(s)` on the dot-free strings the year segment takes in
this data (an optional sign followed by decimal digits); other forms
(exponents, `inf`, `nan`) are treated as parse failures, which is sound for
the 2017–2030 range test the scripts perform. -/
def pyFloatInt? (s : String) : Option ℚ :=
  (pyInt? s).map (fun n => (n : ℚ))

/-- Rational value of a Python float from its repr decomposition. -/
def floatValQ (ip : Int) (frac : String) : ℚ :=
  let k := frac.length
  let f : ℚ := (digitsVal frac.data : ℚ) / (10 : ℚ) ^ k
  if ip < 0 then (ip : ℚ) - f else (ip : ℚ) + f

/-- The grid abstraction: pandas column labels and the dataframe rows
(`rows[0]` being the in-frame header row `df.iloc[0]`). -/
structure Grid where
  cols : List CellVal
  rows : List (List Cell)
deriving DecidableEq

/-- `df.iloc[header_row_idx][all_cols[i]]` with `header_row_idx = 0`.
Grids in this development always carry the in-frame header row. -/
def headerCell (g : Grid) (i : Nat) : Cell :=
  (g.rows.headD []).getD i none

/-- `df.iloc[1:][col].notna().sum()` for column index `i`
(lines 103–104 of `process_arr_waterfall.py`). -/
def nonNullCount (g : Grid) (i : Nat) : Nat :=
  ((g.rows.drop 1).filter (fun r => (r.getD i none).isSome)).length

/-- The section start indices collected by `find_section_indices`
(lines 34–39 of `process_arr_waterfall.py`); `none` is Python `None`. -/
structure Sections where
  arr_start : Option Nat
  netchange_start : Option Nat
  reason_start : Option Nat
  filters_start : Option Nat
deriving DecidableEq

/-- One iteration of the scan loop of `find_section_indices`
(lines 41–50 of `process_arr_waterfall.py`): an exact string match of the
column label against a sentinel overwrites the corresponding start index. -/
def sectionStep (s : Sections) (ic : Nat × CellVal) : Sections :=
  let col_str := pyStr ic.2
  if col_str = "ARR by Period by Product" then { s with arr_start := some ic.1 }
  else if col_str = "Net Change by Period" then { s with netchange_start := some ic.1 }
  else if col_str = "Net Change Reason by Period" then { s with reason_start := some ic.1 }
  else if col_str = "Net Change Filters" then { s with filters_start := some ic.1 }
  else s

/-- `find_section_indices(columns)` (lines 29–52 of
`process_arr_waterfall.py`): scans the ordered column-label list; a missing
sentinel leaves the field `None`. -/
def find_section_indices (columns : List CellVal) : Sections :=
  columns.enum.foldl sectionStep ⟨none, none, none, none⟩

/-- The period test of `get_all_period_indices` applied to one header-row cell
(lines 69–80 of `process_arr_waterfall.py`): a numeric value in `[2017, 2030]`,
or a string containing `'.'` whose segment before the first `'.'` parses as a
float in `[2017, 2030]`.  An empty cell is `NaN`, whose comparisons are false. -/
def is_valid_period (c : Cell) : Bool :=
  match c with
  | none => false
  | some (.vint n) => decide ((2017 : Int) ≤ n) && decide (n ≤ 2030)
  | some (.vfloat ip frac) =>
      decide ((2017 : ℚ) ≤ floatValQ ip frac) && decide (floatValQ ip frac ≤ 2030)
  | some (.vstr s) =>
      if s.data.contains '.' then
        match pyFloatInt? ((pySplitDot s).headD "") with
        | some y => decide ((2017 : ℚ) ≤ y) && decide (y ≤ 2030)
        | none => false
      else false

/-- `get_all_period_indices(df, section_start, next_section_start)`
(lines 55–85 of `process_arr_waterfall.py`): the indices in
`range(section_start, next_section_start)` whose header-row cell passes the
period test; failures are skipped without terminating the scan. -/
def get_all_period_indices (g : Grid) (section_start next_section_start : Nat) : List Nat :=
  (List.range' section_start (next_section_start - section_start)).filter
    (fun i => is_valid_period (headerCell g i))

/-- The density filter inside `get_trailing_12_indices_with_data`
(lines 100–107 of `process_arr_waterfall.py`): the period columns whose
non-null data-row count reaches `min_data_rows`. -/
def densePeriods (g : Grid) (section_start next_section_start min_data_rows : Nat) :
    List Nat :=
  (get_all_period_indices g section_start next_section_start).filter
    (fun i => min_data_rows ≤ nonNullCount g i)

/-- `get_trailing_12_indices_with_data` (lines 88–114 of
`process_arr_waterfall.py`): the last 12 dense period columns
(`valid_period_indices[-12:]`), or all of them when fewer than 12 qualify. -/
def get_trailing_12_indices_with_data
    (g : Grid) (section_start next_section_start min_data_rows : Nat) : List Nat :=
  let valid := densePeriods g section_start next_section_start min_data_rows
  if 12 ≤ valid.length then valid.drop (valid.length - 12) else valid

/-- The warnings the trailing-12 script can emit.  The only warning print in
`process_arr_waterfall.py` is line 113 (`WARNING: Only found ... periods with
data`), emitted when fewer than 12 dense periods exist; no other diagnostic
(in particular no cross-section mismatch diagnostic) exists in the script. -/
inductive Diag where
  | degradedWindow : Nat → Diag
deriving DecidableEq

/-- The diagnostics emitted by `get_trailing_12_indices_with_data`
(the line-113 warning path). -/
def trailing_window_diags
    (g : Grid) (section_start next_section_start min_data_rows : Nat) : List Diag :=
  let valid := densePeriods g section_start next_section_start min_data_rows
  if 12 ≤ valid.length then [] else [.degradedWindow valid.length]

/-- `detect_start_period_from_first_value(period_val)` (lines 140–164 of
`process_arr_waterfall.py`).  A string is split on `'.'` and both segments go
through `int()` (an `IndexError`/`ValueError` — `none` here — when the string
has no `'.'` or a segment is not numeric).  An `int` yields `(value, 1)`; a
float is split via its `str()` repr, the fraction digits taken verbatim as the
month.  The function takes no chronological anchor: the disambiguation of a
one-digit month is the hard-coded comment assumption of lines 156–159. -/
def detect_start_period_from_first_value (period_val : CellVal) : Option (Int × Int) :=
  match period_val with
  | .vstr s =>
      let parts := pySplitDot s
      match parts.get? 0, parts.get? 1 with
      | some p0, some p1 =>
          match pyInt? p0, pyInt? p1 with
          | some y, some m => some (y, m)
          | _, _ => none
      | _, _ => none
  | .vint n => some (n, 1)
  | .vfloat ip frac =>
      match pyInt? frac with
      | some m => some (ip, m)
      | none => none

/-- `f"{n:02d}"` for the values arising here. -/
def pad2 (n : Int) : String :=
  if 0 ≤ n ∧ n < 10 then "0" ++ toString n else toString n

/-- `f"{n:04d}"` for the non-negative values arising here. -/
def pad4 (n : Int) : String :=
  let d := toString n
  if 0 ≤ n ∧ d.length < 4 then String.mk (List.replicate (4 - d.length) '0') ++ d else d

/-- `calculate_period_names(start_year, start_month, count)` (lines 126–137 of
`process_arr_waterfall.py`); Python `//` and `%` are floor division and
floor modulus, i.e. `Int.fdiv` and `Int.fmod` here (`fmod` agrees with `emod`
for the positive divisor 12). -/
def calculate_period_names (start_year start_month : Int) (count : Nat) : List String :=
  (List.range count).map (fun i =>
    let total_months := start_year * 12 + start_month - 1 + (i : Int)
    toString (total_months.fdiv 12) ++ "_" ++ pad2 (total_months.fmod 12 + 1))

/-- Python's `x != 'SF #'` on a cell, as pandas evaluates it elementwise in
`df[df[sf_num_col] != 'SF #']`: `NaN != s` is true, a number never equals a
string, a string compares by equality. -/
def cellNeSFHash (c : Cell) : Bool :=
  match c with
  | none => true
  | some (.vstr s) => s ≠ "SF #"
  | some _ => true

/-- `df_data = df[df[sf_num_col] != 'SF #']` (lines 249–250 of
`process_arr_waterfall.py`): keeps every row whose first cell is not the
string `'SF #'` — including rows with an empty or otherwise non-numeric
identifier cell. -/
def df_data_rows (rows : List (List Cell)) : List (List Cell) :=
  rows.filter (fun r => cellNeSFHash (r.getD 0 none))

/-- `pd.to_numeric(x, errors='coerce')` on one cell: numbers pass through,
numeric strings parse, everything else (including `NaN`) coerces to `NaN`.
String parsing is modelled on the signed decimal-digit forms arising here. -/
def pyToNumeric (c : Cell) : Option ℚ :=
  match c with
  | none => none
  | some (.vint n) => some (n : ℚ)
  | some (.vfloat ip frac) => some (floatValQ ip frac)
  | some (.vstr s) => pyFloatInt? s

/-- `df_filtered = df[pd.to_numeric(df[sf_num_col], errors='coerce').notna()]`
(lines 54–55 of `process_arr_waterfall_FINAL.py`): keeps exactly the rows
whose identifier cell parses as a number. -/
def df_filtered_rows (rows : List (List Cell)) : List (List Cell) :=
  rows.filter (fun r => (pyToNumeric (r.getD 0 none)).isSome)

/-- Row projection used to build each output sheet (e.g. line 260 of
`process_arr_waterfall.py`): the key columns followed by the selected period
columns, positionally. -/
def projRow (keys periodIdx : List Nat) (r : List Cell) : List Cell :=
  keys.map (fun i => r.getD i none) ++ periodIdx.map (fun i => r.getD i none)

/-- What the main body of `process_arr_waterfall.py` computes before writing
the workbook: the three selected windows, the period names, the filtered data
rows, the three output sheets and the accumulated diagnostics. -/
structure MainResult where
  arrIdx : List Nat
  ncIdx : List Nat
  rIdx : List Nat
  period_names : List String
  dataRows : List (List Cell)
  arrTable : List (List Cell)
  ncTable : List (List Cell)
  reasonTable : List (List Cell)
  diags : List Diag
deriving DecidableEq

/-- The main flow of `process_arr_waterfall.py` (lines 184–323), with every
uncaught Python exception modelled as `none`: the `all_cols[35]` key-column
lookup, `range(None, ...)` on a missing sentinel, `arr_indices[0]` /
`netchange_indices[0]` / `reason_indices[0]` on an empty window, and a
`detect_start_period_from_first_value` failure.  `min_data_rows` is the
`MIN_DATA_ROWS` configuration constant (1000 in the script). -/
def runMain (g : Grid) (min_data_rows : Nat) : Option MainResult := do
  let _sf ← g.cols.get? 0                    -- line 200
  let _cust ← g.cols.get? 1                  -- line 201
  let _prod ← g.cols.get? 35                 -- line 202
  let s := find_section_indices g.cols       -- line 192
  let a ← s.arr_start                        -- line 206: range(None, ...) raises
  let nc ← s.netchange_start
  let arrIdx := get_trailing_12_indices_with_data g a nc min_data_rows
  let diags := trailing_window_diags g a nc min_data_rows
  let rs ← s.reason_start                    -- lines 215–216
  let fs ← s.filters_start
  let arrAll := get_all_period_indices g a nc
  let ncAll := get_all_period_indices g nc rs
  let rAll := get_all_period_indices g rs fs
  let first ← arrIdx.head?                   -- line 219: arr_indices[0]
  let off := arrAll.indexOf first            -- line 220
  let ncIdx := (ncAll.drop off).take 12      -- line 226
  let rIdx := (rAll.drop off).take 12        -- line 227
  let _ ← ncIdx.head?                        -- line 231: netchange_indices[0]
  let _ ← rIdx.head?                         -- line 232: reason_indices[0]
  let v ← headerCell g first                 -- line 240
  let sp ← detect_start_period_from_first_value v   -- line 241
  let names := calculate_period_names sp.1 sp.2 12  -- line 244
  let dataRows := df_data_rows g.rows        -- line 250
  return {
    arrIdx := arrIdx, ncIdx := ncIdx, rIdx := rIdx,
    period_names := names, dataRows := dataRows,
    arrTable := dataRows.map (projRow [0, 1, 35] arrIdx),
    ncTable := dataRows.map (projRow [0, 1, 35] ncIdx),
    reasonTable := dataRows.map (projRow [0, 1, 35] rIdx),
    diags := diags }

/-- CPython `calendar.isleap(year)`. -/
def isleap (year : Int) : Bool :=
  year % 4 == 0 && (year % 100 != 0 || year % 400 == 0)

/-- CPython `calendar.mdays`. -/
def mdays : List Nat := [0, 31, 28, 31, 30, 31, 30, 31, 31, 30, 31, 30, 31]

/-- The day count returned by CPython `calendar.monthrange(year, month)`
(`mdays[month] + (month == 2 and isleap(year))`); `none` models the
`IllegalMonthError` for a month outside 1–12 and the `datetime.date` range
error (year outside 1–9999) raised while computing the unused weekday. -/
def monthrange_ndays (year month : Int) : Option Nat :=
  if month < 1 ∨ 12 < month then none
  else if year < 1 ∨ 9999 < year then none
  else some (mdays.getD month.toNat 0 + (if month = 2 ∧ isleap year then 1 else 0))

/-- `period_to_last_day(period_str)` (lines 61–67 of
`process_arr_waterfall_FINAL.py`): split on `'.'` into exactly a year and a
month (`ValueError` — `none` — otherwise), parse both with `int()`, and render
`f"{year:04d}-{month:02d}-{last_day:02d}"` with the `monthrange` day count. -/
def period_to_last_day (period_str : String) : Option String :=
  match pySplitDot period_str with
  | [ys, ms] =>
      match pyInt? ys, pyInt? ms with
      | some year, some month =>
          match monthrange_ndays year month with
          | some last_day =>
              some (pad4 year ++ "-" ++ pad2 month ++ "-" ++ pad2 (last_day : Int))
          | none => none
      | _, _ => none
  | _ => none

/-- The textual dot form of a canonical period, as the `period_names` literals
of `process_arr_waterfall_FINAL.py` (line 70) are written: zero-padded year,
`'.'`, zero-padded month. -/
def period_text (year month : Int) : String :=
  pad4 year ++ "." ++ pad2 month

/-- Modelled from the spec: the last calendar day of a (year, month) in the
Gregorian calendar — 31 for Jan/Mar/May/Jul/Aug/Oct/Dec, 30 for
Apr/Jun/Sep/Nov, and for February 29 in a leap year (divisible by 4 and not
by 100, or divisible by 400) else 28. -/
def lastCalendarDay (year month : Int) : Nat :=
  if month = 2 then
    if (year % 4 = 0 ∧ year % 100 ≠ 0) ∨ year % 400 = 0 then 29 else 28
  else if month = 4 ∨ month = 6 ∨ month = 9 ∨ month = 11 then 30
  else 31

/-- The last `n` elements of a list. -/
def lastN (n : Nat) (l : List α) : List α :=
  l.drop (l.length - n)

/-- The index of the last column whose label prints exactly as `label`
(the specification-level description of a sentinel search over labels). -/
def lastSentinelIdx (label : String) (columns : List CellVal) : Option Nat :=
  ((columns.enum.filter (fun ic => pyStr ic.2 = label)).getLast?).map Prod.fst

/-! ### Concrete test grids

Grids with the workbook's layout: key columns at 0, 1 and 35, the four
sentinel labels at columns 36, 50, 64 and 78, and 14-column metric sections.
-/

/-- Column labels of the test grids: the key-column labels, the four sentinel
labels, and synthetic labels elsewhere. -/
def stdLabel (i : Nat) : CellVal :=
  if i = 0 then .vstr "SF #" else if i = 1 then .vstr "Customer Name"
  else if i = 35 then .vstr "Product"
  else if i = 36 then .vstr "ARR by Period by Product"
  else if i = 50 then .vstr "Net Change by Period"
  else if i = 64 then .vstr "Net Change Reason by Period"
  else if i = 78 then .vstr "Net Change Filters"
  else .vstr ("col" ++ toString i)

/-- In-frame header row: the `SF #` column label repeated, and a period value
under every column of the three metric sections (14 candidates each). -/
def stdHeader (i : Nat) : Cell :=
  if i = 0 then some (.vstr "SF #")
  else if 36 ≤ i ∧ i < 78 then some (.vint 2024)
  else none

/-- A data row with a numeric identifier whose ARR cells are non-empty only in
the first 5 period columns of the ARR section. -/
def earlyDataRow (i : Nat) : Cell :=
  if i = 0 then some (.vint 1)
  else if 36 ≤ i ∧ i < 41 then some (.vint 5)
  else none

/-- Grid for the degraded-reference-window scenario: 14 ARR candidates of
which only the first 5 are dense, and full 14-candidate other sections. -/
def gC3 : Grid :=
  ⟨(List.range 79).map stdLabel,
   [(List.range 79).map stdHeader, (List.range 79).map earlyDataRow]⟩

/-- Header row for the 14-versus-13 candidate scenario: 14 ARR candidates,
13 Net-Change candidates followed by a `Total` column, 14 reason candidates. -/
def mismatchHeader (i : Nat) : Cell :=
  if i = 0 then some (.vstr "SF #")
  else if 36 ≤ i ∧ i < 50 then some (.vint 2024)
  else if 50 ≤ i ∧ i < 63 then some (.vint 2024)
  else if i = 63 then some (.vstr "Total")
  else if 64 ≤ i ∧ i < 78 then some (.vint 2024)
  else none

/-- A data row dense in the last 12 ARR period columns (38–49) only. -/
def lateDataRow (i : Nat) : Cell :=
  if i = 0 then some (.vint 1)
  else if 38 ≤ i ∧ i < 50 then some (.vint 5)
  else none

/-- Grid for the cross-section mismatch scenario: reference section with 14
candidates (the first two sparse, so the window offset is 2) and a
Net-Change section with only 13 candidates. -/
def gC4 : Grid :=
  ⟨(List.range 79).map stdLabel,
   [(List.range 79).map mismatchHeader, (List.range 79).map lateDataRow]⟩

/-- A data row whose identifier cell is empty (pandas `NaN`). -/
def ghostDataRow (i : Nat) : Cell :=
  if i = 0 then none
  else if i = 1 then some (.vstr "Ghost Co")
  else if 36 ≤ i ∧ i < 50 then some (.vint 7)
  else none

/-- The empty-identifier row as a list. -/
def ghostRow : List Cell := (List.range 79).map ghostDataRow

/-- Grid containing a data row with an empty identifier cell alongside a
normal numeric-identifier row. -/
def gC8 : Grid :=
  ⟨(List.range 79).map stdLabel,
   [(List.range 79).map stdHeader,
    ghostRow,
    (List.range 79).map earlyDataRow]⟩

/-- Grid whose column 0's header-row cell equals the ARR sentinel while its
label does not, and whose column 1's label equals the sentinel while its
header-row cell does not. -/
def gC5 : Grid :=
  ⟨[.vstr "X", .vstr "ARR by Period by Product"],
   [[some (.vstr "ARR by Period by Product"), some (.vstr "Y")]]⟩

/-- Column labels identical to `stdLabel` except that the required
`Net Change Filters` sentinel is absent. -/
def noFiltersLabel (i : Nat) : CellVal :=
  if i = 78 then .vstr "Totals" else stdLabel i

/-- Grid in which the `Net Change Filters` sentinel label is absent. -/
def gC6 : Grid :=
  ⟨(List.range 79).map noFiltersLabel,
   [(List.range 79).map stdHeader, (List.range 79).map earlyDataRow]⟩

/-- Tiny grid for instantiating the trailing-window selector: two candidate
period columns, the first with one non-empty data cell, the second with
none. -/
def gW2 : Grid :=
  ⟨[],
   [[some (.vint 2024), some (.vint 2025)],
    [some (.vint 1), none]]⟩

/-! ### Helper lemmas -/

/-- The period columns of a section are listed in strictly increasing
column-index order. -/
lemma pairwise_get_all_period_indices (g : Grid) (a b : Nat) :
    (get_all_period_indices g a b).Pairwise (· < ·) :=
  (List.pairwise_lt_range' a (b - a)).sublist (List.filter_sublist _)

/-- The dense period columns of a section are listed in strictly increasing
column-index order. -/
lemma pairwise_densePeriods (g : Grid) (a b m : Nat) :
    (densePeriods g a b m).Pairwise (· < ·) :=
  (pairwise_get_all_period_indices g a b).sublist (List.filter_sublist _)

/-- Membership in the period-column list, unfolded to the range bound and the
period test on the header-row cell. -/
lemma mem_get_all_period_indices (g : Grid) (a b i : Nat) :
    i ∈ get_all_period_indices g a b ↔
      a ≤ i ∧ i < b ∧ is_valid_period (headerCell g i) = true := by
  unfold get_all_period_indices
  rw [List.mem_filter, List.mem_range'_1]
  constructor
  · rintro ⟨⟨h1, h2⟩, h3⟩
    exact ⟨h1, by omega, h3⟩
  · rintro ⟨h1, h2, h3⟩
    exact ⟨⟨h1, by omega⟩, h3⟩

/-- The Boolean period test, characterized as the disjunction of the three
accepting shapes of `get_all_period_indices`. -/
lemma is_valid_period_iff (c : Cell) :
    is_valid_period c = true ↔
      ((∃ n : Int, c = some (.vint n) ∧ 2017 ≤ n ∧ n ≤ 2030) ∨
       (∃ ip frac, c = some (.vfloat ip frac) ∧
          (2017 : ℚ) ≤ floatValQ ip frac ∧ floatValQ ip frac ≤ 2030) ∨
       (∃ s : String, c = some (.vstr s) ∧ '.' ∈ s.data ∧
          ∃ y : ℚ, pyFloatInt? ((pySplitDot s).headD "") = some y ∧
            2017 ≤ y ∧ y ≤ 2030)) := by
  match c with
  | none => simp [is_valid_period]
  | some (.vint n) => simp [is_valid_period]
  | some (.vfloat ip frac) =>
      simp only [is_valid_period, Bool.and_eq_true, decide_eq_true_eq,
        Option.some.injEq, reduceCtorEq, false_and, exists_false,
        CellVal.vfloat.injEq, false_or, or_false]
      constructor
      · rintro ⟨h1, h2⟩
        exact ⟨ip, frac, ⟨rfl, rfl⟩, h1, h2⟩
      · rintro ⟨ip1, frac1, ⟨rfl, rfl⟩, h1, h2⟩
        exact ⟨h1, h2⟩
  | some (.vstr s) =>
      simp only [is_valid_period, Option.some.injEq, reduceCtorEq, false_and,
        exists_false, CellVal.vstr.injEq, exists_eq_left', false_or, or_false]
      by_cases hdot : s.data.contains '.'
      · rw [if_pos hdot]
        have hmem : '.' ∈ s.data := by
          simpa using hdot
        cases hy : pyFloatInt? ((pySplitDot s).headD "") with
        | none => simp [hy, hmem]
        | some y =>
            simp [hy, hmem]
      · rw [if_neg hdot]
        have hmem : ¬ '.' ∈ s.data := by
          simpa using hdot
        simp [hmem]

/-- CPython's leap-year test agrees with the Gregorian-rule phrasing. -/
lemma isleap_iff (y : Int) :
    isleap y = true ↔ ((y % 4 = 0 ∧ y % 100 ≠ 0) ∨ y % 400 = 0) := by
  unfold isleap
  simp only [Bool.and_eq_true, Bool.or_eq_true, beq_iff_eq, bne_iff_ne, ne_eq]
  omega

/-- The CPython `monthrange` day count is the Gregorian last calendar day. -/
lemma monthrange_eq_lastCalendarDay (year month : Int)
    (h1 : 1 ≤ year) (h2 : year ≤ 9999) (h3 : 1 ≤ month) (h4 : month ≤ 12) :
    monthrange_ndays year month = some (lastCalendarDay year month) := by
  have hcases := isleap_iff year
  unfold monthrange_ndays
  rw [if_neg (by omega), if_neg (by omega)]
  by_cases hl : isleap year = true
  · have hg : (year % 4 = 0 ∧ year % 100 ≠ 0) ∨ year % 400 = 0 := hcases.1 hl
    have hg2 : (4 ∣ year ∧ ¬ (100 ∣ year)) ∨ 400 ∣ year := by omega
    interval_cases month <;> simp [mdays, lastCalendarDay, List.getD, hl, hg, hg2]
  · have hg : ¬ ((year % 4 = 0 ∧ year % 100 ≠ 0) ∨ year % 400 = 0) :=
      fun hc => hl (hcases.2 hc)
    have hg2 : ¬ ((4 ∣ year ∧ ¬ (100 ∣ year)) ∨ 400 ∣ year) := by omega
    interval_cases month <;> simp [mdays, lastCalendarDay, List.getD, hl, hg, hg2]

/-- One step of the `find_section_indices` scan, seen through a single field:
the field is overwritten exactly when the column label prints as that field's
sentinel.  The hypothesis `hstep` is discharged once per field below. -/
lemma foldl_sectionStep_field (f : Sections → Option Nat) (label : String)
    (hstep : ∀ s ic, f (sectionStep s ic) =
      if pyStr ic.2 = label then some ic.1 else f s)
    (l : List (Nat × CellVal)) (s0 : Sections) :
    f (l.foldl sectionStep s0) =
      (((l.filter (fun ic => pyStr ic.2 = label)).getLast?).map Prod.fst).or (f s0) := by
  induction l generalizing s0 with
  | nil => simp
  | cons x xs ih =>
      rw [List.foldl_cons, ih, hstep]
      by_cases hx : pyStr x.2 = label
      · rw [if_pos hx, List.filter_cons_of_pos (by simpa using hx)]
        rw [← List.head?_reverse, ← List.head?_reverse, List.reverse_cons,
          List.head?_append]
        cases hrev : (List.filter (fun ic => pyStr ic.2 = label) xs).reverse.head? with
        | none => simp [hrev]
        | some z => simp [hrev]
      · rw [if_neg hx, List.filter_cons_of_neg (by simpa using hx)]

/-- `int()` of a single digit character yields its digit value. -/
lemma pyIntChars?_single_digit (c : Char) (hc : c.isDigit = true) :
    pyIntChars? [c] = some ((c.toNat - 48 : Nat) : Int) := by
  unfold pyIntChars?
  split
  next rest heq =>
    exfalso
    obtain ⟨rfl, -⟩ := List.cons.inj heq
    simp [Char.isDigit] at hc
  next rest heq =>
    exfalso
    obtain ⟨rfl, -⟩ := List.cons.inj heq
    simp [Char.isDigit] at hc
  next =>
    rw [if_pos ⟨by simp, by simp [hc]⟩]
    simp [digitsVal]

/-! ### Claims -/

/-- C1, counterexample.  The claim asserts that a one-character month segment
is resolved through a caller-supplied chronological anchor, with the parse
flagged rather than silently guessed when no anchor is available.
`detect_start_period_from_first_value` has no anchor parameter at all, and on
the ambiguous float encoding `2025.1` (whose `str()` form collides with a
trailing-zero-lost `2025.10`) — with no anchor anywhere in scope — it returns
the definite, unflagged answer `(2025, 1)`; the same for the string form.
The concrete resolution `(2025, 1)` itself is what the code computes, but by
a hard-coded assumption, not by anchor-driven or flagged parsing. -/
theorem c1_counterexample :
    detect_start_period_from_first_value (.vfloat 2025 "1") = some (2025, 1) ∧
    detect_start_period_from_first_value (.vstr "2025.1") = some (2025, 1) := by
  decide

/-- C1, amended: the Period Value Disambiguator takes no anchor; it resolves
the month as the literal digit string after the separator, so a one-digit
month is silently interpreted as that month number (a hard-coded assumption
in the source).  In particular the textual form `2025.1` resolves to
`(2025, 1)` (January), not `(2025, 10)`. -/
theorem c1_amended_literal_month (y : Int) (c : Char) (hc : c.isDigit = true) :
    detect_start_period_from_first_value (.vfloat y (String.mk [c])) =
      some (y, ((c.toNat - 48 : Nat) : Int)) ∧
    detect_start_period_from_first_value (.vstr "2025.1") = some (2025, 1) := by
  constructor
  · unfold detect_start_period_from_first_value
    dsimp only
    rw [show pyInt? (String.mk [c]) = some ((c.toNat - 48 : Nat) : Int) from
      pyIntChars?_single_digit c hc]
  · decide

/-- C1, witness for the amended theorem at the digit `'1'`. -/
theorem c1_amended_witness :
    detect_start_period_from_first_value (.vfloat 2025 (String.mk ['1'])) =
      some (2025, (('1'.toNat - 48 : Nat) : Int)) :=
  (c1_amended_literal_month 2025 '1' (by decide)).1

/-- C2: over every grid, section range and density threshold, the
Trailing-Window Selector returns exactly the last `min 12 k` qualifying
(dense) candidates, where `k` is the number of candidates whose non-empty
count over the data rows (header row excluded) meets the threshold: the
result is the `lastN 12` suffix of the qualifying list, has length
`min 12 k`, is in strictly increasing original column-index order, every
returned column's count meets the threshold, and when `k < 12` all `k`
qualifying columns are returned. -/
theorem c2_trailing_window_selector (g : Grid) (a b m : Nat) :
    get_trailing_12_indices_with_data g a b m = lastN 12 (densePeriods g a b m) ∧
    (get_trailing_12_indices_with_data g a b m).length =
      min 12 (densePeriods g a b m).length ∧
    (get_trailing_12_indices_with_data g a b m).Pairwise (· < ·) ∧
    (∀ i ∈ get_trailing_12_indices_with_data g a b m, m ≤ nonNullCount g i) ∧
    ((densePeriods g a b m).length < 12 →
      get_trailing_12_indices_with_data g a b m = densePeriods g a b m) := by
  simp only [get_trailing_12_indices_with_data, lastN]
  by_cases h : 12 ≤ (densePeriods g a b m).length
  · rw [if_pos h]
    refine ⟨rfl, ?_, ?_, ?_, ?_⟩
    · rw [List.length_drop]; omega
    · exact (pairwise_densePeriods g a b m).sublist (List.drop_sublist _ _)
    · intro i hi
      have hmem : i ∈ densePeriods g a b m := (List.drop_sublist _ _).subset hi
      have := (List.mem_filter.1 hmem).2
      exact of_decide_eq_true this
    · intro hlt; omega
  · rw [if_neg h]
    refine ⟨?_, ?_, pairwise_densePeriods g a b m, ?_, fun _ => rfl⟩
    · rw [Nat.sub_eq_zero_of_le (by omega), List.drop_zero]
    · omega
    · intro i hi
      exact of_decide_eq_true (List.mem_filter.1 hi).2

/-- C2, witness: a concrete grid with two candidates of which one is dense,
instantiating the degraded branch and the threshold bound of the theorem. -/
theorem c2_witness :
    (densePeriods gW2 0 2 1).length < 12 ∧
    get_trailing_12_indices_with_data gW2 0 2 1 = densePeriods gW2 0 2 1 ∧
    1 ≤ nonNullCount gW2 0 :=
  ⟨by decide, (c2_trailing_window_selector gW2 0 2 1).2.2.2.2 (by decide),
   (c2_trailing_window_selector gW2 0 2 1).2.2.2.1 0 (by decide)⟩

/-- C3, counterexample.  The claim asserts the Cross-Section Aligner's window
never exceeds the reference window, "for any reference window length
including a degraded reference window of fewer than 12 columns".  On `gC3`
the reference (ARR) window is degraded to 5 columns at relative offset 0,
yet the Net-Change window selected by the aligner slice has 12 columns —
more than the reference window. -/
theorem c3_counterexample :
    (runMain gC3 1).map (fun r => (r.arrIdx.length, r.ncIdx.length)) = some (5, 12) := by
  decide

/-- C3, amended: the aligner's window for a section with `n` candidates at
offset `off` has length `min 12 (n - off)` — the constant window size 12,
not the reference window's length, whenever the section has at least
`off + 12` candidates.  It never exceeds 12, hence never exceeds a *full*
(12-column) reference window; a degraded reference window can be exceeded. -/
theorem c3_amended_aligner_length (g : Grid) (nc rs off : Nat) :
    (((get_all_period_indices g nc rs).drop off).take 12).length =
      min 12 ((get_all_period_indices g nc rs).length - off) ∧
    (∀ a b m, (get_trailing_12_indices_with_data g a b m).length = 12 →
      (((get_all_period_indices g nc rs).drop off).take 12).length ≤
        (get_trailing_12_indices_with_data g a b m).length) := by
  constructor
  · rw [List.length_take, List.length_drop]
  · intro a b m href
    rw [href, List.length_take]
    omega

/-- C3, witness for the amended theorem: on `gC4` the reference window is
full (12 columns) and the aligned Net-Change window does not exceed it. -/
theorem c3_amended_witness :
    (((get_all_period_indices gC4 50 64).drop 2).take 12).length ≤
      (get_trailing_12_indices_with_data gC4 36 50 1).length :=
  (c3_amended_aligner_length gC4 50 64 2).2 36 50 1 (by decide)

/-- C4, counterexample.  The claim's concrete scenario — 14 reference
candidates, 13 in the other section, offset 2 — does truncate the shorter
section's window to 11 periods and the run continues, but the claim also
asserts a structural-mismatch diagnostic is reported.  The script emits no
such diagnostic: its only warning is the degraded-window print inside
`get_trailing_12_indices_with_data` (modelled exhaustively by `Diag`), and
on `gC4` the diagnostics list of the whole run is empty. -/
theorem c4_counterexample :
    (runMain gC4 1).map (fun r => (r.ncIdx.length, r.diags)) = some (11, []) := by
  decide

/-- C4, amended: whenever a non-reference section has fewer candidates than
`offset + 12`, the aligner slice truncates that section's window to the
`n - offset` available candidates and the run continues without an
unrecoverable fault; no structural-mismatch diagnostic is emitted. -/
theorem c4_amended_truncation (g : Grid) (nc rs off : Nat)
    (h : (get_all_period_indices g nc rs).length < off + 12) :
    (((get_all_period_indices g nc rs).drop off).take 12).length =
      (get_all_period_indices g nc rs).length - off := by
  rw [List.length_take, List.length_drop]
  omega

/-- C4, witness: the 14-versus-13 scenario of `gC4` at offset 2 truncates
the Net-Change window to 11 = 13 - 2 periods. -/
theorem c4_amended_witness :
    (((get_all_period_indices gC4 50 64).drop 2).take 12).length =
      (get_all_period_indices gC4 50 64).length - 2 :=
  c4_amended_truncation gC4 50 64 2 (by decide)


/-- C5, counterexample.  In `gC5`, column 0's header-row cell equals the ARR
sentinel while its label does not, and column 1's label equals the sentinel
while its header-row cell does not.  The claim says column 0 is found as the
section start and column 1 is not; `find_section_indices` does the opposite,
because it matches the column labels and never consults the header row. -/
theorem c5_counterexample :
    (find_section_indices gC5.cols).arr_start = some 1 ∧
    ¬ (find_section_indices gC5.cols).arr_start = some 0 := by
  decide

/-- C5, amended: the Header Classifier matches each sentinel by exact
case-sensitive equality against the column's own label (the pandas column
name, carrying the workbook's first-row section title), never against the
in-frame header row: each section start is exactly the last column index
whose label prints as the sentinel. -/
theorem c5_amended_label_match (columns : List CellVal) :
    (find_section_indices columns).arr_start =
      lastSentinelIdx "ARR by Period by Product" columns ∧
    (find_section_indices columns).netchange_start =
      lastSentinelIdx "Net Change by Period" columns ∧
    (find_section_indices columns).reason_start =
      lastSentinelIdx "Net Change Reason by Period" columns ∧
    (find_section_indices columns).filters_start =
      lastSentinelIdx "Net Change Filters" columns := by
  have harr : ∀ s ic, (sectionStep s ic).arr_start =
      if pyStr ic.2 = "ARR by Period by Product" then some ic.1 else s.arr_start := by
    intro s ic
    by_cases h1 : pyStr ic.2 = "ARR by Period by Product" <;>
      by_cases h2 : pyStr ic.2 = "Net Change by Period" <;>
      by_cases h3 : pyStr ic.2 = "Net Change Reason by Period" <;>
      by_cases h4 : pyStr ic.2 = "Net Change Filters" <;>
      simp [sectionStep, h1, h2, h3, h4]
  have hnc : ∀ s ic, (sectionStep s ic).netchange_start =
      if pyStr ic.2 = "Net Change by Period" then some ic.1 else s.netchange_start := by
    intro s ic
    by_cases h1 : pyStr ic.2 = "ARR by Period by Product" <;>
      by_cases h2 : pyStr ic.2 = "Net Change by Period" <;>
      by_cases h3 : pyStr ic.2 = "Net Change Reason by Period" <;>
      by_cases h4 : pyStr ic.2 = "Net Change Filters" <;>
      simp [sectionStep, h1, h2, h3, h4]
  have hrs : ∀ s ic, (sectionStep s ic).reason_start =
      if pyStr ic.2 = "Net Change Reason by Period" then some ic.1 else s.reason_start := by
    intro s ic
    by_cases h1 : pyStr ic.2 = "ARR by Period by Product" <;>
      by_cases h2 : pyStr ic.2 = "Net Change by Period" <;>
      by_cases h3 : pyStr ic.2 = "Net Change Reason by Period" <;>
      by_cases h4 : pyStr ic.2 = "Net Change Filters" <;>
      simp [sectionStep, h1, h2, h3, h4]
  have hfs : ∀ s ic, (sectionStep s ic).filters_start =
      if pyStr ic.2 = "Net Change Filters" then some ic.1 else s.filters_start := by
    intro s ic
    by_cases h1 : pyStr ic.2 = "ARR by Period by Product" <;>
      by_cases h2 : pyStr ic.2 = "Net Change by Period" <;>
      by_cases h3 : pyStr ic.2 = "Net Change Reason by Period" <;>
      by_cases h4 : pyStr ic.2 = "Net Change Filters" <;>
      simp [sectionStep, h1, h2, h3, h4]
  unfold find_section_indices lastSentinelIdx
  refine ⟨?_, ?_, ?_, ?_⟩
  · rw [foldl_sectionStep_field _ _ harr, Option.or_none]
  · rw [foldl_sectionStep_field _ _ hnc, Option.or_none]
  · rw [foldl_sectionStep_field _ _ hrs, Option.or_none]
  · rw [foldl_sectionStep_field _ _ hfs, Option.or_none]

/-- C6, counterexample.  With every sentinel absent from the column-label
list, `find_section_indices` does not report a structural error: it returns
a normal `Sections` value whose fields are all `None`.  The claim's
structural-error report from the Header Classifier does not exist. -/
theorem c6_counterexample :
    find_section_indices [CellVal.vstr "SF #", CellVal.vstr "Year"] =
      ⟨none, none, none, none⟩ := by
  decide

/-- C6, amended: the Header Classifier itself never fails — a missing
sentinel merely leaves its start index `None` — and the run then dies with
an untyped `TypeError` when that `None` reaches `range()` downstream (`none`
here), so no partial result is produced; but no typed structural error is
reported by the classifier. -/
theorem c6_amended_untyped_failure (g : Grid) (m : Nat)
    (h : (find_section_indices g.cols).arr_start = none ∨
         (find_section_indices g.cols).netchange_start = none ∨
         (find_section_indices g.cols).reason_start = none ∨
         (find_section_indices g.cols).filters_start = none) :
    runMain g m = none := by
  unfold runMain
  cases h0 : g.cols.get? 0 with
  | none => rfl
  | some c0 =>
  cases h1 : g.cols.get? 1 with
  | none => rfl
  | some c1 =>
  cases h35 : g.cols.get? 35 with
  | none => rfl
  | some c35 =>
  simp only [Option.bind_eq_bind, Option.some_bind]
  rcases h with h | h | h | h
  · rw [h]; rfl
  · cases ha : (find_section_indices g.cols).arr_start with
    | none => rfl
    | some a =>
      simp only [Option.bind_eq_bind, Option.some_bind]
      rw [h]; rfl
  · cases ha : (find_section_indices g.cols).arr_start with
    | none => rfl
    | some a =>
      simp only [Option.bind_eq_bind, Option.some_bind]
      cases hb : (find_section_indices g.cols).netchange_start with
      | none => rfl
      | some nc =>
        simp only [Option.bind_eq_bind, Option.some_bind]
        rw [h]; rfl
  · cases ha : (find_section_indices g.cols).arr_start with
    | none => rfl
    | some a =>
      simp only [Option.bind_eq_bind, Option.some_bind]
      cases hb : (find_section_indices g.cols).netchange_start with
      | none => rfl
      | some nc =>
        simp only [Option.bind_eq_bind, Option.some_bind]
        cases hc : (find_section_indices g.cols).reason_start with
        | none => rfl
        | some rs =>
          simp only [Option.bind_eq_bind, Option.some_bind]
          rw [h]; rfl

/-- C6, witness for the amended theorem: `gC6` lacks the `Net Change
Filters` sentinel, and the whole run produces no (partial) result. -/
theorem c6_amended_witness : runMain gC6 1 = none :=
  c6_amended_untyped_failure gC6 1 (Or.inr (Or.inr (Or.inr (by decide))))


/-- C7: within a section's range, a column index is returned by the Period
Column Detector if and only if it lies in the range and its header-row cell
is a numeric value (int, or float by value) in the plausible-year range
2017–2030, or a textual value containing a `'.'` separator whose year
segment parses to a value in 2017–2030; failing columns are skipped without
terminating the scan, and the result preserves the original column order. -/
theorem c7_period_column_detector (g : Grid) (a b : Nat) :
    (∀ i, i ∈ get_all_period_indices g a b ↔
      a ≤ i ∧ i < b ∧
      ((∃ n : Int, headerCell g i = some (.vint n) ∧ 2017 ≤ n ∧ n ≤ 2030) ∨
       (∃ ip frac, headerCell g i = some (.vfloat ip frac) ∧
          (2017 : ℚ) ≤ floatValQ ip frac ∧ floatValQ ip frac ≤ 2030) ∨
       (∃ s : String, headerCell g i = some (.vstr s) ∧ '.' ∈ s.data ∧
          ∃ y : ℚ, pyFloatInt? ((pySplitDot s).headD "") = some y ∧
            2017 ≤ y ∧ y ≤ 2030))) ∧
    (get_all_period_indices g a b).Pairwise (· < ·) := by
  refine ⟨fun i => ?_, pairwise_get_all_period_indices g a b⟩
  rw [mem_get_all_period_indices, is_valid_period_iff]

/-- C8, counterexample.  `ghostRow` has an empty identifier cell, which does
not parse as a numeric entity key; yet in the run of
`process_arr_waterfall.py` on `gC8` it survives the `!= 'SF #'` filter and
appears in the filtered data rows and in the ARR output table — the claim's
universal exclusion fails for this script. -/
theorem c8_counterexample :
    (pyToNumeric (ghostRow.getD 0 none)).isSome = false ∧
    (runMain gC8 1).map (fun r =>
      decide (ghostRow ∈ r.dataRows) &&
      decide (projRow [0, 1, 35] r.arrIdx ghostRow ∈ r.arrTable)) = some true := by
  decide

/-- C8, amended: the FINAL pivot script keeps exactly the rows whose
identifier cell parses as a number, but the trailing-12 script keeps exactly
the rows whose identifier cell is not the literal `'SF #'` — so a row with
an empty (or otherwise non-numeric, non-`'SF #'`) identifier is retained in
its outputs. -/
theorem c8_amended_row_filtering (rows : List (List Cell)) (r : List Cell) :
    (r ∈ df_filtered_rows rows ↔
      r ∈ rows ∧ (pyToNumeric (r.getD 0 none)).isSome = true) ∧
    (r ∈ df_data_rows rows ↔
      r ∈ rows ∧ cellNeSFHash (r.getD 0 none) = true) ∧
    (r ∈ rows → r.getD 0 none = none → r ∈ df_data_rows rows) := by
  refine ⟨?_, ?_, fun hr hid => ?_⟩
  · simp [df_filtered_rows, List.mem_filter]
  · simp [df_data_rows, List.mem_filter]
  · rw [df_data_rows, List.mem_filter]
    exact ⟨hr, by rw [hid]; rfl⟩

/-- C8, witness for the amended theorem: the empty-identifier row is kept by
the trailing-12 script's row filter. -/
theorem c8_amended_witness : ghostRow ∈ df_data_rows [ghostRow] :=
  (c8_amended_row_filtering [ghostRow] ghostRow).2.2 (by simp) (by decide)

/-- C9: for every textual period splitting into a year segment and a month
segment with month 1–12 (and year in the 1–9999 `datetime` range), rendering
it as a calendar date yields the last calendar day of that (year, month) in
the Gregorian sense — including leap-February. -/
theorem c9_last_day_round_trip (s ys ms : String) (year month : Int)
    (hsplit : pySplitDot s = [ys, ms])
    (hy : pyInt? ys = some year) (hm : pyInt? ms = some month)
    (h1 : 1 ≤ year) (h2 : year ≤ 9999) (h3 : 1 ≤ month) (h4 : month ≤ 12) :
    period_to_last_day s =
      some (pad4 year ++ "-" ++ pad2 month ++ "-" ++
        pad2 ((lastCalendarDay year month : Nat) : Int)) := by
  unfold period_to_last_day
  rw [hsplit]
  dsimp only
  rw [hy, hm]
  dsimp only
  rw [monthrange_eq_lastCalendarDay year month h1 h2 h3 h4]

/-- C9, witness: the leap-February instances — period 2024.02 renders to day
29 and period 2025.02 renders to day 28. -/
theorem c9_witness :
    period_to_last_day "2024.02" = some "2024-02-29" ∧
    period_to_last_day "2025.02" = some "2025-02-28" :=
  ⟨(c9_last_day_round_trip "2024.02" "2024" "02" 2024 2 (by decide) (by decide)
      (by decide) (by decide) (by decide) (by decide) (by decide)).trans (by decide),
   (c9_last_day_round_trip "2025.02" "2025" "02" 2025 2 (by decide) (by decide)
      (by decide) (by decide) (by decide) (by decide) (by decide)).trans (by decide)⟩

/-- C10: the Period Column Detector validates only the year segment of a
textual header cell — every string containing a `'.'` whose year segment
parses into 2017–2030 is accepted regardless of the month segment, and in
particular `"2025.99"` and `"2025.xyz"` are accepted. -/
theorem c10_month_segment_unvalidated :
    is_valid_period (some (.vstr "2025.99")) = true ∧
    is_valid_period (some (.vstr "2025.xyz")) = true ∧
    (∀ s : String, '.' ∈ s.data →
      (∃ y : ℚ, pyFloatInt? ((pySplitDot s).headD "") = some y ∧
        2017 ≤ y ∧ y ≤ 2030) →
      is_valid_period (some (.vstr s)) = true) := by
  refine ⟨by decide, by decide, fun s hdot hy => ?_⟩
  exact (is_valid_period_iff _).2 (Or.inr (Or.inr ⟨s, rfl, hdot, hy⟩))

/-- C10, witness: the universal part applied to `"2025.xyz"`, whose month
segment is not a valid month number. -/
theorem c10_witness : is_valid_period (some (CellVal.vstr "2025.xyz")) = true :=
  c10_month_segment_unvalidated.2.2 "2025.xyz" (by decide)
    ⟨(2025 : ℚ), by decide, by decide, by decide⟩


end ArrWaterfall
